import Mathlib

/-!
Verification development for the montage media engine (src/project.rs,
src/export.rs, src/player.rs, src/video.rs).

The Rust source is shallowly embedded: pure data types become Lean
structures, the stateful player methods become explicit state-passing
functions that additionally return the list of calls they issue to the
underlying multimedia framework, and the blocking bus message loop becomes
a recursive function over a finite list of bus events.  Values coming from
the runtime environment (bus messages, duration/position query results,
dynamically exposed decoder pads, link success) are parameters of the
functions that consume them.  Rust `f64` arithmetic on positions and
durations is modelled over `ℚ`; `u64` nanosecond counts are `ℕ` with the
saturating `as u64` cast made explicit.
-/

namespace Montage

/-! ## Data model (src/project.rs) -/

/-- Rust `MediaType` from src/project.rs. -/
inductive MediaType
  | audio
  | video
  | image
deriving DecidableEq, Repr

/-- Rust `Clip` from src/project.rs: one media file plus its timeline placement.
Paths are modelled as strings, `f64` seconds as `ℚ`. -/
structure Clip where
  id : String
  description : String
  path : String
  mediaType : MediaType
  startTime : ℚ
  duration : Option ℚ
deriving DecidableEq, Repr

/-- Rust `AudioTrack` from src/project.rs. -/
structure AudioTrack where
  path : String
  duration : Option ℚ
  sampleRate : Option ℕ
deriving DecidableEq, Repr

/-- Rust `VideoTrack` from src/project.rs. -/
structure VideoTrack where
  path : String
  duration : Option ℚ
  dimensions : Option (ℕ × ℕ)
deriving DecidableEq, Repr

/-- Rust `ProjectMetadata` from src/project.rs. -/
structure ProjectMetadata where
  name : String
  description : String
  createdAt : Option String
  modifiedAt : Option String
deriving DecidableEq, Repr

/-- Rust `TimelineState` from src/project.rs. -/
structure TimelineState where
  position : ℚ
  zoom : ℚ
deriving DecidableEq, Repr

/-- Rust `Project` from src/project.rs. -/
structure Project where
  version : ℕ
  metadata : ProjectMetadata
  audio : Option AudioTrack
  video : Option VideoTrack
  clips : List Clip
  timeline : TimelineState
deriving DecidableEq, Repr

/-- The video-clip filter applied at the top of `export_project`
(src/export.rs) and `load_project` (src/player.rs):
`project.clips.iter().filter(|c| c.media_type == MediaType::Video)`. -/
def Project.videoClips (p : Project) : List Clip :=
  p.clips.filter (fun c => c.mediaType = MediaType.video)

/-! ## Export settings (src/export.rs) -/

/-- Rust `ExportSettings` from src/export.rs. -/
structure ExportSettings where
  outputPath : String
  width : ℕ
  height : ℕ
  videoBitrate : ℕ
  audioBitrate : ℕ
deriving DecidableEq, Repr

/-- Rust `ExportSettings::default()` from src/export.rs. -/
def ExportSettings.default : ExportSettings :=
  { outputPath := "output.mp4"
    width := 1920
    height := 1080
    videoBitrate := 5000
    audioBitrate := 192 }

/-! ## The bus message loop (src/export.rs, `run_pipeline` and the tail of
`export_multiple_clips`)

Both functions contain the same blocking loop:
`for msg in bus.iter_timed(gst::ClockTime::NONE)` matching on the message
view; `Eos` breaks out of the loop (then the pipeline is set to `Null` and
`Ok(())` is returned), `Error` sets the pipeline to `Null` and bails with
`"Export error: {err} ({debug})"`, `StateChanged` (handled only in
`export_multiple_clips`) is logged and falls through, and everything else
falls through.  After the match, if a progress callback was supplied and
both `query_duration` and `query_position` return `Some`, the callback is
invoked with `position.nseconds() as f64 / duration.nseconds() as f64`.

A bus event is modelled as the message together with the results the two
queries would give at that point in the run (they come from the runtime
environment).  `set_state(Null)` is modelled as always succeeding; the
model records the final pipeline state reached. -/

/-- The message views distinguished by the loop in src/export.rs. -/
inductive BusMsg
  | eos
  | error (text : String) (debug : String)
  | stateChanged
  | other
deriving DecidableEq, Repr

/-- One bus iteration: the message plus the values the duration/position
queries return at that moment (in nanoseconds; `none` = query failed). -/
structure BusEvent where
  msg : BusMsg
  durNs : Option ℕ
  posNs : Option ℕ
deriving DecidableEq, Repr

/-- The low-level pipeline state set by `set_state`. -/
inductive GstState
  | null
  | ready
  | paused
  | playing
deriving DecidableEq, Repr

/-- Outcome of one run of the bus loop: the `Result` value returned to the
caller, every progress fraction passed to the callback in order, and the
pipeline state left behind. -/
structure LoopResult where
  result : Except String Unit
  progress : List ℚ
  finalState : GstState
deriving Repr

/-- The blocking bus loop of `run_pipeline` / `export_multiple_clips`
(src/export.rs).  `Eos` breaks (progress is not reported for that
iteration), the first `Error` tears the pipeline down and returns the
formatted error, any other message falls through to the progress report;
when the event list is exhausted the pipeline is set to `Null` and
`Ok(())` is returned. -/
def runLoop : List BusEvent → LoopResult
  | [] => { result := .ok (), progress := [], finalState := .null }
  | e :: rest =>
    match e.msg with
    | .eos => { result := .ok (), progress := [], finalState := .null }
    | .error t d =>
      { result := .error ("Export error: " ++ t ++ " (" ++ d ++ ")")
        progress := []
        finalState := .null }
    | _ =>
      let r := runLoop rest
      match e.durNs, e.posNs with
      | some dur, some pos => { r with progress := ((pos : ℚ) / (dur : ℚ)) :: r.progress }
      | _, _ => r

/-- A bus message is terminal when the loop does not proceed past it. -/
def BusMsg.isTerminal : BusMsg → Bool
  | .eos => true
  | .error _ _ => true
  | _ => false

/-- An event's queries are consistent when, whenever both succeed, the
reported duration is positive and at least the reported position.  The
source never checks this; it is the side condition under which the
unclamped progress quotient stays within the unit interval. -/
def BusEvent.queriesConsistent (e : BusEvent) : Bool :=
  match e.durNs, e.posNs with
  | some dur, some pos => decide (0 < dur) && decide (pos ≤ dur)
  | _, _ => true

/-- Specification-side characterisation of the progress values a run
emits: one value per non-terminal event whose duration and position
queries both succeed, in order. -/
def progressOf (events : List BusEvent) : List ℚ :=
  (events.takeWhile (fun e => !e.msg.isTerminal)).filterMap fun e =>
    match e.durNs, e.posNs with
    | some dur, some pos => some ((pos : ℚ) / (dur : ℚ))
    | _, _ => none

/-! ## Multi-clip export graph construction (src/export.rs,
`export_multiple_clips`)

`export_multiple_clips` builds one `uridecodebin` per clip (in clip-list
order) and installs a `pad-added` handler that, for each pad the decoder
exposes at runtime, inspects the pad's caps name: a `video/…` pad gets a
fresh request pad on the shared `video_concat` element and is linked to
it; an `audio/…` pad likewise on `audio_concat`; any other pad is ignored.
A failed link is logged as `"Failed to link video pad"` /
`"Failed to link audio pad"` and the pad stays unconnected.

The runtime environment decides which pads each decoder exposes and
whether each link succeeds; the model takes both as parameters.  Pad
arrival order across decoders is abstracted to clip-list order (it does
not affect the properties proved here, which are about membership,
warnings and total duration). -/

/-- The caps classification performed by the `pad-added` closures
(`name.starts_with("video/")` / `name.starts_with("audio/")` / other). -/
inductive PadKind
  | video
  | audio
  | other
deriving DecidableEq, Repr

/-- Runtime environment of one export run: the pads decoder `i` exposes,
whether the `j`-th pad of decoder `i` links successfully, the actual media
duration (ns) of clip `i`'s file, and the bus events of the run. -/
structure ExportEnv where
  pads : ℕ → List PadKind
  linkOk : ℕ → ℕ → Bool
  mediaDurationNs : ℕ → ℕ
  bus : List BusEvent

/-- The wiring produced by the `pad-added` handlers: which clip indices
ended up linked into `video_concat` / `audio_concat`, and the warnings
logged for failed links. -/
structure BuiltGraph where
  videoInputs : List ℕ
  audioInputs : List ℕ
  warnings : List String
deriving DecidableEq, Repr

/-- One `pad-added` invocation for pad `j` (of kind `k`) of decoder `i`
(the body of the closure in `export_multiple_clips`). -/
def padAdded (linkOk : ℕ → ℕ → Bool) (i j : ℕ) (k : PadKind) (g : BuiltGraph) :
    BuiltGraph :=
  match k with
  | .video =>
    if linkOk i j then { g with videoInputs := g.videoInputs ++ [i] }
    else { g with warnings := g.warnings ++ ["Failed to link video pad"] }
  | .audio =>
    if linkOk i j then { g with audioInputs := g.audioInputs ++ [i] }
    else { g with warnings := g.warnings ++ ["Failed to link audio pad"] }
  | .other => g

/-- All `pad-added` invocations for decoder `i`, over its exposed pads in
order (`j` is the running pad index). -/
def decoderPads (linkOk : ℕ → ℕ → Bool) (i : ℕ) :
    ℕ → List PadKind → BuiltGraph → BuiltGraph
  | _, [], g => g
  | j, k :: rest, g => decoderPads linkOk i (j + 1) rest (padAdded linkOk i j k g)

/-- The graph wiring after the decoders of clips `0 … n-1` have exposed
their pads (`for (i, clip) in clips.iter().enumerate()` in
`export_multiple_clips`). -/
def multiClipWiring (env : ExportEnv) : ℕ → BuiltGraph
  | 0 => { videoInputs := [], audioInputs := [], warnings := [] }
  | n + 1 =>
    decoderPads env.linkOk n 0 (env.pads n) (multiClipWiring env n)

/-- Semantics of the `concat` element (multimedia framework): its output
stream's duration is the sum of the durations of its linked inputs.  The
export's video duration is therefore the sum over the clips wired into
`video_concat`. -/
def videoOutputDurationNs (env : ExportEnv) (g : BuiltGraph) : ℕ :=
  (g.videoInputs.map env.mediaDurationNs).sum

/-! ## `export_project` (src/export.rs)

`export_project` filters the project's clips to the video ones; if none
remain it bails with `"No video clips to export"` before any pipeline or
graph object is created; a single video clip goes through
`export_single_clip` (a `parse_launch` string pipeline plus `run_pipeline`);
two or more go through `export_multiple_clips` (the concat graph above plus
the same bus loop).  There is no external-transcoder probe anywhere in the
export path: every export uses this internal engine. -/

/-- Which pipeline an export run constructed, if any. -/
inductive GraphDesc
  | single (path : String)
  | multi (g : BuiltGraph)
deriving DecidableEq, Repr

/-- Full observable outcome of `export_project`: the pipeline constructed
(`none` when the function returned before building anything), the
`Result` returned to the caller, the progress values delivered to the
callback, the warnings logged by pad linking, and the duration of the
resulting output stream (from the concat semantics; `none` when no
pipeline was built). -/
structure ExportOutcome where
  graph : Option GraphDesc
  result : Except String Unit
  progress : List ℚ
  warnings : List String
  outputDurationNs : Option ℕ
deriving Repr

/-- Rust `export_project` (src/export.rs) together with the run of the built
pipeline, over the runtime environment `env`. -/
def exportProject (proj : Project) (env : ExportEnv) : ExportOutcome :=
  let vclips := proj.videoClips
  match vclips with
  | [] =>
    { graph := none
      result := .error "No video clips to export"
      progress := []
      warnings := []
      outputDurationNs := none }
  | [c] =>
    let r := runLoop env.bus
    { graph := some (.single c.path)
      result := r.result
      progress := r.progress
      warnings := []
      outputDurationNs := some (env.mediaDurationNs 0) }
  | _ :: _ :: _ =>
    let g := multiClipWiring env vclips.length
    let r := runLoop env.bus
    { graph := some (.multi g)
      result := r.result
      progress := r.progress
      warnings := g.warnings
      outputDurationNs := some (videoOutputDurationNs env g) }

/-! ## Seek position arithmetic (src/player.rs and src/video.rs) -/

/-- Rust `as u64` applied to an `f64`: the cast saturates below at `0` and
above at `u64::MAX`, truncating toward zero; modelled over `ℚ`. -/
def ratAsU64 (x : ℚ) : ℕ :=
  if x < 0 then 0 else min ⌊x⌋.toNat (2 ^ 64 - 1)

/-- The nanosecond position that `ProjectPlayer::seek` (src/player.rs)
requests from the pipeline:
`(position.clamp(0.0, 1.0) * self.duration * 1_000_000_000.0) as u64`,
where `duration` is the cached duration in seconds. -/
def projectSeekNs (position duration : ℚ) : ℕ :=
  ratAsU64 (max 0 (min position 1) * duration * 1000000000)

/-- The nanosecond position that `VideoPlayer::seek` (src/video.rs)
requests from the pipeline:
`(position * self.duration * 1_000_000_000.0) as u64` — the input is not
clamped in this implementation. -/
def videoSeekNs (position duration : ℚ) : ℕ :=
  ratAsU64 (position * duration * 1000000000)

/-! ## ProjectPlayer (src/player.rs)

The player owns an optional pipeline handle, a state flag, the cached
duration/position (seconds, `f64` → `ℚ`) and the shared frame cell.  Each
method is embedded as a function from the player to the new player plus
the list of calls it issues to the framework; `seek` takes `&self` in the
source, so it cannot change the player and only issues calls. -/

/-- Rust `Frame` from src/player.rs: copied pixel bytes plus dimensions. -/
structure Frame where
  data : List ℕ
  width : ℕ
  height : ℕ
deriving DecidableEq, Repr

/-- Rust `PlayerState` from src/player.rs.  There is no `Failed` variant
in the source. -/
inductive PlayerState
  | stopped
  | paused
  | playing
deriving DecidableEq, Repr

/-- Calls a player method can issue to the multimedia framework. -/
inductive GstCall
  | setState (s : GstState)
  | seekSimple (ns : ℕ)
deriving DecidableEq, Repr

/-- Rust `ProjectPlayer` from src/player.rs.  The pipeline handle carries
no data in the model; `Option Unit` records only presence. -/
structure ProjectPlayer where
  currentFrame : Option Frame
  pipeline : Option Unit
  state : PlayerState
  duration : ℚ
  position : ℚ
  width : ℕ
  height : ℕ
deriving DecidableEq, Repr

/-- Rust `ProjectPlayer::new()` from src/player.rs. -/
def ProjectPlayer.new : ProjectPlayer :=
  { currentFrame := none
    pipeline := none
    state := .stopped
    duration := 0
    position := 0
    width := 1280
    height := 720 }

/-- Rust `ProjectPlayer::stop` (src/player.rs): if a pipeline is present
its state is set to `Null` (the release call), then the handle is dropped,
the state becomes `Stopped` and the stored frame is cleared. -/
def ProjectPlayer.stop (p : ProjectPlayer) : ProjectPlayer × List GstCall :=
  ({ p with pipeline := none, state := .stopped, currentFrame := none },
    match p.pipeline with
    | some _ => [GstCall.setState .null]
    | none => [])

/-- Rust `ProjectPlayer::play` (src/player.rs): with a pipeline present it
sets the pipeline to `Playing` and records state `Playing`; with no
pipeline it does nothing. -/
def ProjectPlayer.play (p : ProjectPlayer) : ProjectPlayer × List GstCall :=
  match p.pipeline with
  | some _ => ({ p with state := .playing }, [GstCall.setState .playing])
  | none => (p, [])

/-- Rust `ProjectPlayer::pause` (src/player.rs): with a pipeline present
it sets the pipeline to `Paused` and records state `Paused`; with no
pipeline it does nothing. -/
def ProjectPlayer.pause (p : ProjectPlayer) : ProjectPlayer × List GstCall :=
  match p.pipeline with
  | some _ => ({ p with state := .paused }, [GstCall.setState .paused])
  | none => (p, [])

/-- Rust `ProjectPlayer::seek` (src/player.rs) takes `&self`: it mutates
nothing.  With a pipeline present it issues one flushing key-unit seek to
the clamped nanosecond position; with no pipeline it issues nothing. -/
def ProjectPlayer.seek (p : ProjectPlayer) (position : ℚ) : List GstCall :=
  match p.pipeline with
  | some _ => [GstCall.seekSimple (projectSeekNs position p.duration)]
  | none => []

/-- The value Rust `ProjectPlayer::seek` returns to its caller: the
function's return type is `()`, so every call returns the unit value,
whether or not a pipeline is loaded. -/
def ProjectPlayer.seekReturn (_p : ProjectPlayer) (_position : ℚ) : Unit := ()

/-- Rust `ProjectPlayer::is_loaded` (src/player.rs):
`self.pipeline.is_some()`. -/
def ProjectPlayer.isLoaded (p : ProjectPlayer) : Bool :=
  p.pipeline.isSome

/-- Runtime environment of `build_pipeline` (src/player.rs): whether
element creation, linking and `set_state(Paused)` succeed, and what the
duration query returns after the preroll wait (nanoseconds; `none` =
query failed, the cached duration is left untouched). -/
structure LoadEnv where
  build : Except String Unit
  queriedDurationNs : Option ℕ

/-- Rust `ProjectPlayer::load_project` (src/player.rs): first `stop()` is
called to clean up any old pipeline; then the project's video clips are
collected; if there are none the function logs and returns `Ok(())`
without constructing anything; otherwise `build_pipeline` runs (modelled
through `env`), and on success the player holds the new pipeline in state
`Paused` with the queried duration cached. -/
def ProjectPlayer.loadProject (p : ProjectPlayer) (proj : Project) (env : LoadEnv) :
    ProjectPlayer × Except String Unit :=
  let p1 := p.stop.1
  if proj.videoClips.isEmpty then
    (p1, .ok ())
  else
    match env.build with
    | .error e => (p1, .error e)
    | .ok () =>
      let dur : ℚ :=
        match env.queriedDurationNs with
        | some ns => (ns : ℚ) / 1000000000
        | none => p1.duration
      ({ p1 with pipeline := some (), state := .paused, duration := dur }, .ok ())

/-! ## Frame sink (src/player.rs, the AppSink `new_sample` callback, and
`ProjectPlayer::current_frame`)

Each `new_sample` invocation maps the sample's buffer readable, copies the
pixel bytes with `map.as_slice().to_vec()` — a fresh allocation — builds a
new `Frame` with the dimensions from the sample's caps, and stores it in
the shared cell, replacing whatever was there.  `current_frame` clones the
stored frame.  To make buffer freshness provable, the model gives every
copy an explicit address in a heap that only grows: `new_sample` always
writes to the next unused address, and the single slot points at the most
recent one. -/

/-- A decoded sample as delivered to the AppSink callback: mapped pixel
bytes plus the dimensions carried by its caps. -/
structure Sample where
  data : List ℕ
  width : ℕ
  height : ℕ
deriving DecidableEq, Repr

/-- The `Frame { data: map.as_slice().to_vec(), width, height }`
construction inside the `new_sample` callback (src/player.rs). -/
def Frame.ofSample (s : Sample) : Frame :=
  { data := s.data, width := s.width, height := s.height }

/-- The frame sink's shared cell, with buffer identity made explicit:
`bufs` is the heap of all pixel buffers ever allocated, `nextBuf` the next
unused address, `slot` the address the cell currently exposes. -/
structure FrameSink where
  nextBuf : ℕ
  bufs : ℕ → Option Frame
  slot : Option ℕ

/-- The sink before any sample arrived (`Arc::new(Mutex::new(None))`). -/
def FrameSink.empty : FrameSink :=
  { nextBuf := 0, bufs := fun _ => none, slot := none }

/-- One `new_sample` callback invocation (src/player.rs): copy the bytes
and dimensions into a fresh buffer and replace the stored frame with it. -/
def FrameSink.newSample (s : FrameSink) (sm : Sample) : FrameSink :=
  { nextBuf := s.nextBuf + 1
    bufs := fun i => if i = s.nextBuf then some (Frame.ofSample sm) else s.bufs i
    slot := some s.nextBuf }

/-- Rust `ProjectPlayer::current_frame` (src/player.rs): clone of the
frame the slot currently points at. -/
def FrameSink.currentFrame (s : FrameSink) : Option Frame :=
  s.slot.bind s.bufs

/-- A whole run of the decode callback: the samples the pipeline delivers,
in order, each handled by `new_sample`. -/
def FrameSink.run (s : FrameSink) (sms : List Sample) : FrameSink :=
  sms.foldl FrameSink.newSample s

/-! ## Spec-side seek outcome (for comparison only) -/

/-- Modelled from the spec: section 4.3 prescribes that a seek issued
before Prerolled or after Stopped/Failed "returns NotReady"; an in-range
seek on a ready graph is accepted.  No such return value exists anywhere
in the source (`ProjectPlayer::seek` returns `()`); this type exists only
to compare the source's return against the spec's words. -/
inductive SpecSeekOutcome
  | notReady
  | accepted
deriving DecidableEq, Repr

/-- Modelled from the spec: the outcome the spec assigns to a seek, as a
function of whether the player holds a loaded pipeline. -/
def specSeekOutcome (loaded : Bool) : SpecSeekOutcome :=
  if loaded then .accepted else .notReady

/-! ## Concrete fixtures

Concrete projects, environments and players used by the closed witness
and counterexample theorems below. -/

/-- Empty metadata record. -/
def emptyMeta : ProjectMetadata :=
  { name := "demo", description := "", createdAt := none, modifiedAt := none }

/-- Default timeline record. -/
def demoTimeline : TimelineState :=
  { position := 0, zoom := 10 }

/-- A video clip whose media file lasts 5 seconds. -/
def clipVideoA : Clip :=
  { id := "clip_a", description := "intro", path := "/media/a.mp4"
    mediaType := .video, startTime := 0, duration := some 5 }

/-- A video clip whose media file lasts 3 seconds. -/
def clipVideoB : Clip :=
  { id := "clip_b", description := "outro", path := "/media/b.mp4"
    mediaType := .video, startTime := 5, duration := some 3 }

/-- An audio clip (filtered out by the video-clip filter). -/
def clipAudio : Clip :=
  { id := "clip_c", description := "music", path := "/media/c.mp3"
    mediaType := .audio, startTime := 0, duration := some 8 }

/-- A project containing only an audio clip — no video clips at all. -/
def projNoVideo : Project :=
  { version := 1, metadata := emptyMeta, audio := none, video := none
    clips := [clipAudio], timeline := demoTimeline }

/-- A project with two video clips (5 s and 3 s) and an audio clip. -/
def projTwoClips : Project :=
  { version := 1, metadata := emptyMeta, audio := none, video := none
    clips := [clipVideoA, clipVideoB, clipAudio], timeline := demoTimeline }

/-- A run environment where every decoder exposes one video and one audio
pad, every link succeeds, clip 0's file lasts 5 s and every other clip's
file 3 s, and the run ends with a clean end-of-stream. -/
def envAllLinked : ExportEnv :=
  { pads := fun _ => [PadKind.video, PadKind.audio]
    linkOk := fun _ _ => true
    mediaDurationNs := fun i => if i = 0 then 5000000000 else 3000000000
    bus := [{ msg := .eos, durNs := none, posNs := none }] }

/-- A build environment where pipeline construction succeeds and the
duration query reports 8 s. -/
def demoLoadEnv : LoadEnv :=
  { build := .ok (), queriedDurationNs := some 8000000000 }

/-- A player holding a loaded pipeline, prerolled and paused, with a
cached duration of 10 s. -/
def loadedPlayer : ProjectPlayer :=
  { currentFrame := none, pipeline := some (), state := .paused
    duration := 10, position := 0, width := 1280, height := 720 }

/-- The loaded player, playing. -/
def playingPlayer : ProjectPlayer :=
  { loadedPlayer with state := .playing }

/-- A decoded sample fixture. -/
def sample0 : Sample := { data := [1, 2, 3, 4], width := 2, height := 1 }

/-- A second decoded sample fixture. -/
def sample1 : Sample := { data := [5, 6, 7, 8], width := 2, height := 1 }

/-- A third decoded sample fixture. -/
def sample2 : Sample := { data := [9, 9, 9, 9], width := 2, height := 1 }

/-- A one-event non-terminal bus prefix whose queries report a 1 s
duration and a 0.5 s position. -/
def demoPre : List BusEvent :=
  [{ msg := .other, durNs := some 1000000000, posNs := some 500000000 }]

/-- A successful run (EOS) whose only delivered progress value is 1/2:
both queries succeed mid-run, and no invocation with exactly 1 occurs. -/
def okNoFullTrace : List BusEvent :=
  [{ msg := .other, durNs := some 2000000000, posNs := some 1000000000 },
   { msg := .eos, durNs := none, posNs := none }]

/-- The frame sink after exactly one sample: one buffer allocated, the
slot pointing at it. -/
def sinkAfterOne : FrameSink :=
  FrameSink.empty.newSample sample0

/-! # Theorems

Shared helper lemmas first, then one theorem per claim (with its witness
or counterexample where required). -/

/-- The progress list a run of the bus loop delivers is exactly one value
per non-terminal event whose two queries both succeed, in order. -/
theorem runLoop_progress_eq_progressOf (events : List BusEvent) :
    (runLoop events).progress = progressOf events := by
  induction events with
  | nil => rfl
  | cons e rest ih =>
    rcases e with ⟨msg, durNs, posNs⟩
    cases msg <;> simp only [runLoop, progressOf, BusMsg.isTerminal,
      List.takeWhile, List.filterMap] at * <;>
      cases durNs <;> cases posNs <;> simp_all [progressOf]

/-- Running the loop on a prefix of non-terminal events followed by a tail
behaves as the tail's run with the prefix's progress values prepended. -/
theorem runLoop_append_nonterminal (pre l : List BusEvent)
    (hpre : ∀ e ∈ pre, e.msg.isTerminal = false) :
    runLoop (pre ++ l) =
      { runLoop l with progress := progressOf pre ++ (runLoop l).progress } := by
  induction pre with
  | nil => simp [progressOf]
  | cons e rest ih =>
    have he : e.msg.isTerminal = false := hpre e (List.mem_cons_self e rest)
    have hrest : ∀ x ∈ rest, x.msg.isTerminal = false :=
      fun x hx => hpre x (List.mem_cons_of_mem e hx)
    rcases e with ⟨msg, durNs, posNs⟩
    cases msg with
    | eos => simp [BusMsg.isTerminal] at he
    | error t d => simp [BusMsg.isTerminal] at he
    | stateChanged =>
      simp only [List.cons_append, runLoop, progressOf, List.takeWhile,
        BusMsg.isTerminal, Bool.not_false, List.filterMap]
      cases durNs <;> cases posNs <;> simp_all [ih hrest, progressOf] <;> rfl
    | other =>
      simp only [List.cons_append, runLoop, progressOf, List.takeWhile,
        BusMsg.isTerminal, Bool.not_false, List.filterMap]
      cases durNs <;> cases posNs <;> simp_all [ih hrest, progressOf] <;> rfl

/-- Under an environment where every decoder exposes exactly one video pad
and one audio pad and every link succeeds, the wiring links every clip
into both concat elements, in clip order, with no warnings. -/
theorem multiClipWiring_allLinked (env : ExportEnv)
    (hpads : ∀ i, env.pads i = [PadKind.video, PadKind.audio])
    (hlink : ∀ i j, env.linkOk i j = true) (n : ℕ) :
    multiClipWiring env n =
      { videoInputs := List.range n, audioInputs := List.range n, warnings := [] } := by
  induction n with
  | zero => simp [multiClipWiring]
  | succ n ih =>
    simp [multiClipWiring, ih, hpads, hlink, decoderPads, padAdded, List.range_succ]

/-- The saturating cast sends every non-positive rational to zero. -/
theorem ratAsU64_nonpos {x : ℚ} (hx : x ≤ 0) : ratAsU64 x = 0 := by
  unfold ratAsU64
  rcases lt_or_eq_of_le hx with h | h
  · simp [h]
  · simp [h]

/-- Later samples never write into a buffer allocated before them: the
heap below the current allocation bound is preserved by any further run,
and the allocation bound never decreases. -/
theorem FrameSink.run_preserves (sms : List Sample) :
    ∀ s : FrameSink, (∀ i < s.nextBuf, (FrameSink.run s sms).bufs i = s.bufs i) ∧
      s.nextBuf ≤ (FrameSink.run s sms).nextBuf := by
  induction sms with
  | nil => intro s; exact ⟨fun i _ => rfl, le_refl _⟩
  | cons sm rest ih =>
    intro s
    have hstep : FrameSink.run s (sm :: rest) = FrameSink.run (s.newSample sm) rest := rfl
    obtain ⟨hbufs, hle⟩ := ih (s.newSample sm)
    constructor
    · intro i hi
      have hi' : i < (s.newSample sm).nextBuf := Nat.lt_succ_of_lt hi
      rw [hstep, hbufs i hi']
      simp [FrameSink.newSample, Nat.ne_of_lt hi]
    · rw [hstep]
      exact le_trans (Nat.le_succ _) hle

/-! ## Claim C1 -/

/-- C1 counterexample: the source's export path has no external transcoder
probe at all, so a two-clip export necessarily runs on the internal engine
(`export_multiple_clips`) — and that function wires BOTH clips into the
concat graph.  With clip files of 5 s and 3 s, all pads linked and a clean
EOS, the output stream lasts 8 s, not the first clip's 5 s, the export
succeeds, and no degradation warning is logged — refuting the claimed
first-clip-only degradation. -/
theorem C1_counterexample :
    (exportProject projTwoClips envAllLinked).outputDurationNs = some 8000000000 ∧
    envAllLinked.mediaDurationNs 0 = 5000000000 ∧
    (exportProject projTwoClips envAllLinked).outputDurationNs ≠
      some (envAllLinked.mediaDurationNs 0) ∧
    (exportProject projTwoClips envAllLinked).warnings = [] ∧
    (exportProject projTwoClips envAllLinked).result = .ok () := by
  refine ⟨by decide, by decide, by decide, by decide, rfl⟩

/-- C1 (amended): for every export request whose project contains two or
more video clips, export runs on the internal engine (the source probes
for no external tool) and `export_multiple_clips` wires EVERY clip into
the shared concat elements: when each clip's decoder exposes one video and
one audio pad and all links succeed, every clip index is linked in order,
no degradation warning is logged, and the output duration equals the sum
of all clips' media durations — not the first clip's duration alone. -/
theorem C1_multi_export_all_clips (proj : Project) (env : ExportEnv)
    (h2 : 2 ≤ proj.videoClips.length)
    (hpads : ∀ i, env.pads i = [PadKind.video, PadKind.audio])
    (hlink : ∀ i j, env.linkOk i j = true) :
    (exportProject proj env).graph =
      some (.multi { videoInputs := List.range proj.videoClips.length
                     audioInputs := List.range proj.videoClips.length
                     warnings := [] }) ∧
    (exportProject proj env).warnings = [] ∧
    (exportProject proj env).outputDurationNs =
      some (((List.range proj.videoClips.length).map env.mediaDurationNs).sum) := by
  obtain ⟨a, b, l, hv⟩ : ∃ a b l, proj.videoClips = a :: b :: l := by
    rcases hv : proj.videoClips with _ | ⟨a, _ | ⟨b, l⟩⟩
    · rw [hv] at h2; simp at h2
    · rw [hv] at h2; simp at h2
    · exact ⟨a, b, l, rfl⟩
  have hw := multiClipWiring_allLinked env hpads hlink proj.videoClips.length
  rw [hv] at hw
  simp only [exportProject, hv, videoOutputDurationNs, hw]
  exact ⟨trivial, trivial, trivial⟩

/-- C1 witness: the amended statement evaluated on the two-clip fixture. -/
theorem C1_multi_export_all_clips_witness :
    (exportProject projTwoClips envAllLinked).graph =
      some (.multi { videoInputs := List.range projTwoClips.videoClips.length
                     audioInputs := List.range projTwoClips.videoClips.length
                     warnings := [] }) ∧
    (exportProject projTwoClips envAllLinked).warnings = [] ∧
    (exportProject projTwoClips envAllLinked).outputDurationNs =
      some (((List.range projTwoClips.videoClips.length).map
        envAllLinked.mediaDurationNs).sum) :=
  C1_multi_export_all_clips projTwoClips envAllLinked (by decide)
    (fun _ => rfl) (fun _ _ => rfl)

/-! ## Claim C2 -/

/-- C2 (confirmed): for a project whose clip list contains no video clips,
`export_project` returns the NoClips construction error
(`"No video clips to export"`) before any playback or encode begins: no
graph was constructed, no progress was ever delivered, and no output
stream exists. -/
theorem C2_export_noClips (proj : Project) (env : ExportEnv)
    (h : proj.videoClips = []) :
    exportProject proj env =
      { graph := none
        result := .error "No video clips to export"
        progress := []
        warnings := []
        outputDurationNs := none } := by
  simp only [exportProject, h]

/-- C2 witness: the audio-only fixture project. -/
theorem C2_export_noClips_witness :
    exportProject projNoVideo envAllLinked =
      { graph := none
        result := .error "No video clips to export"
        progress := []
        warnings := []
        outputDurationNs := none } :=
  C2_export_noClips projNoVideo envAllLinked (by decide)

/-! ## Claim C3 -/

/-- C3 (confirmed): the blocking bus loop consumes events until EOS or the
first Error.  After any prefix of non-terminal events, an EOS makes it
return `Ok` with the pipeline torn down to `Null`; an Error makes it tear
the pipeline down to `Null` and return — as an ordinary `Result`, without
aborting the caller's process — a single terminal error whose text carries
both the error text and the diagnostic detail.  Events after the terminal
message are never consumed. -/
theorem C3_loop_terminal (pre post : List BusEvent) (t d : String)
    (q1 q2 q3 q4 : Option ℕ)
    (hpre : ∀ e ∈ pre, e.msg.isTerminal = false) :
    runLoop (pre ++ { msg := .eos, durNs := q1, posNs := q2 } :: post) =
      { result := .ok (), progress := progressOf pre, finalState := .null } ∧
    runLoop (pre ++ { msg := .error t d, durNs := q3, posNs := q4 } :: post) =
      { result := .error ("Export error: " ++ t ++ " (" ++ d ++ ")")
        progress := progressOf pre
        finalState := .null } := by
  constructor <;> rw [runLoop_append_nonterminal pre _ hpre] <;> simp [runLoop]

/-- C3 witness: a one-event prefix, then EOS (success) or an Error that
surfaces both the text and the detail. -/
theorem C3_loop_terminal_witness :
    runLoop (demoPre ++ { msg := .eos, durNs := none, posNs := none } :: []) =
      { result := .ok (), progress := progressOf demoPre, finalState := .null } ∧
    runLoop (demoPre ++
        { msg := .error "decode failed" "h264 parse", durNs := none, posNs := none } :: []) =
      { result := .error ("Export error: " ++ "decode failed" ++ " (" ++ "h264 parse" ++ ")")
        progress := progressOf demoPre
        finalState := .null } :=
  C3_loop_terminal demoPre [] "decode failed" "h264 parse" none none none none (by decide)

/-! ## Claim C4 -/

/-- C4 counterexample: the progress value is the raw quotient
position/duration with no clamping, so it is not always in [0,1]: on a run
whose position query reports 2 s while the duration query reports 1 s —
both queries succeed — the callback receives the value 2, although the run
itself ends successfully. -/
theorem C4_counterexample :
    (runLoop [{ msg := .other, durNs := some 1000000000, posNs := some 2000000000 },
              { msg := .eos, durNs := none, posNs := none }]).progress = [2] ∧
    ¬ ((2 : ℚ) ≤ 1) ∧
    (runLoop [{ msg := .other, durNs := some 1000000000, posNs := some 2000000000 },
              { msg := .eos, durNs := none, posNs := none }]).result = .ok () := by
  refine ⟨?_, by norm_num, rfl⟩
  norm_num [runLoop]

/-- C4 (amended): the progress callback fires only on events where both
the duration and the position query succeed — hence never before a
duration is known — with the unclamped value position/duration; whenever
every successful query pair reports a positive duration at least as large
as the position, every delivered value lies in [0,1] (but not otherwise,
see the counterexample); and a final invocation with exactly 1.0 is not
guaranteed: the fixture run succeeds delivering only the value 1/2. -/
theorem C4_progress (events : List BusEvent)
    (hq : events.all BusEvent.queriesConsistent = true) :
    (runLoop events).progress = progressOf events ∧
    (∀ v ∈ (runLoop events).progress, 0 ≤ v ∧ v ≤ 1) ∧
    (runLoop okNoFullTrace).result = .ok () ∧
    (1 : ℚ) ∉ (runLoop okNoFullTrace).progress := by
  refine ⟨runLoop_progress_eq_progressOf events, ?_, rfl,
    by norm_num [runLoop, okNoFullTrace]⟩
  intro v hv
  rw [runLoop_progress_eq_progressOf, progressOf] at hv
  obtain ⟨e, he, hfe⟩ := List.mem_filterMap.mp hv
  have hmem : e ∈ events := List.takeWhile_subset _ he
  have hcons : e.queriesConsistent = true := List.all_eq_true.mp hq e hmem
  rcases hdur : e.durNs with _ | dur <;> rcases hpos : e.posNs with _ | pos <;>
      rw [hdur, hpos] at hfe <;> simp at hfe
  rw [BusEvent.queriesConsistent, hdur, hpos] at hcons
  simp only [Bool.and_eq_true, decide_eq_true_eq] at hcons
  obtain ⟨hdpos, hple⟩ := hcons
  subst hfe
  constructor
  · positivity
  · rw [div_le_one (by exact_mod_cast hdpos)]
    exact_mod_cast hple

/-- C4 witness: the amended statement evaluated on the fixture run whose
queries satisfy position ≤ duration. -/
theorem C4_progress_witness :
    (runLoop okNoFullTrace).progress = progressOf okNoFullTrace ∧
    (∀ v ∈ (runLoop okNoFullTrace).progress, 0 ≤ v ∧ v ≤ 1) ∧
    (runLoop okNoFullTrace).result = .ok () ∧
    (1 : ℚ) ∉ (runLoop okNoFullTrace).progress :=
  C4_progress okNoFullTrace (by decide)

/-! ## Claim C5 -/

/-- C5 counterexample: `VideoPlayer::seek` (src/video.rs) does not clamp
its input: with a cached duration of 1 s, seeking to 2 requests
2 000 000 000 ns while seeking to exactly 1 requests 1 000 000 000 ns, so
an input above 1 does not produce the same requested position as seeking
to 1 — refuting the claim for one of the two cited seek implementations. -/
theorem C5_counterexample :
    videoSeekNs 2 1 = 2000000000 ∧
    videoSeekNs 1 1 = 1000000000 ∧
    (2000000000 : ℕ) ≠ 1000000000 := by
  refine ⟨?_, ?_, by norm_num⟩ <;> norm_num [videoSeekNs, ratAsU64] <;> decide

/-- C5 (amended): `ProjectPlayer::seek` (src/player.rs) clamps its input
to [0,1], so any input below 0 requests the same pipeline position as 0
and any input above 1 the same position as 1.  `VideoPlayer::seek`
(src/video.rs) does not clamp: below 0 the saturating u64 cast still
yields the same request as seeking to 0 whenever the cached duration is
nonnegative, but above 1 the request keeps growing with the input
(see the counterexample), so clamping idempotence fails there. -/
theorem C5_seek_clamping (p q r d e : ℚ)
    (hp : p < 0) (hq : 1 < q) (hr : r < 0) (hd : 0 ≤ d) :
    projectSeekNs p e = projectSeekNs 0 e ∧
    projectSeekNs q e = projectSeekNs 1 e ∧
    videoSeekNs r d = videoSeekNs 0 d := by
  refine ⟨?_, ?_, ?_⟩
  · unfold projectSeekNs
    rw [min_eq_left (hp.le.trans zero_le_one), max_eq_left hp.le,
      min_eq_left zero_le_one, max_self]
  · unfold projectSeekNs
    rw [min_eq_right hq.le, min_self]
  · have h1 : r * d ≤ 0 := mul_nonpos_iff.mpr (Or.inr ⟨hr.le, hd⟩)
    have h2 : r * d * 1000000000 ≤ 0 :=
      mul_nonpos_iff.mpr (Or.inr ⟨h1, by norm_num⟩)
    unfold videoSeekNs
    rw [ratAsU64_nonpos h2, zero_mul, zero_mul, ratAsU64_nonpos le_rfl]

/-- C5 witness: the amended statement at concrete inputs (duration 10 s,
seeks to −1, 2, −1). -/
theorem C5_seek_clamping_witness :
    projectSeekNs (-1) 10 = projectSeekNs 0 10 ∧
    projectSeekNs 2 10 = projectSeekNs 1 10 ∧
    videoSeekNs (-1) 10 = videoSeekNs 0 10 :=
  C5_seek_clamping (-1) 2 (-1) 10 10 (by norm_num) (by norm_num)
    (by norm_num) (by norm_num)

/-! ## Claim C6 -/

/-- C6 (confirmed): each new decoded sample is copied — bytes plus
dimensions — into a fresh buffer which replaces the single stored frame
(single slot, last write wins); and a reader's snapshot is independent:
the buffer a read came from is never written by any later sample, so
subsequent writes never mutate it. -/
theorem C6_frame_sink (s : FrameSink) (sm : Sample) (sms : List Sample) (i : ℕ)
    (hs : s.slot = some i) (hv : i < s.nextBuf) :
    (s.newSample sm).currentFrame = some (Frame.ofSample sm) ∧
    (s.newSample sm).slot = some s.nextBuf ∧
    s.currentFrame = s.bufs i ∧
    (FrameSink.run s sms).bufs i = s.bufs i := by
  refine ⟨?_, rfl, ?_, (FrameSink.run_preserves sms s).1 i hv⟩
  · simp [FrameSink.newSample, FrameSink.currentFrame]
  · simp [FrameSink.currentFrame, hs]

/-- C6 witness: after one stored sample, a second sample replaces the
exposed frame while a further run never rewrites buffer 0. -/
theorem C6_frame_sink_witness :
    (sinkAfterOne.newSample sample1).currentFrame = some (Frame.ofSample sample1) ∧
    (sinkAfterOne.newSample sample1).slot = some sinkAfterOne.nextBuf ∧
    sinkAfterOne.currentFrame = sinkAfterOne.bufs 0 ∧
    (FrameSink.run sinkAfterOne [sample2]).bufs 0 = sinkAfterOne.bufs 0 :=
  C6_frame_sink sinkAfterOne sample1 [sample2] 0 rfl (by decide)

/-! ## Claim C7 -/

/-- C7 (confirmed): calling stop twice is safe.  After one `stop` the
player holds no pipeline, is Stopped, and stores no frame; the second
`stop` returns the very same player and issues no framework call at all —
the pipeline's resources are never released a second time (and the model
function is total: no panic). -/
theorem C7_stop_twice (p : ProjectPlayer) :
    (p.stop.1.stop).1 = p.stop.1 ∧
    (p.stop.1.stop).2 = [] ∧
    p.stop.1.pipeline = none ∧
    p.stop.1.state = .stopped ∧
    p.stop.1.currentFrame = none :=
  ⟨rfl, rfl, rfl, rfl, rfl⟩

/-! ## Claim C8 -/

/-- C8 (confirmed): play and pause are idempotent — `play` on a player
already Playing and `pause` on a player already Paused each return the
player unchanged in every field. -/
theorem C8_play_pause_idempotent (p q : ProjectPlayer)
    (hp : p.state = .playing) (hq : q.state = .paused) :
    p.play.1 = p ∧ q.pause.1 = q := by
  constructor
  · rcases p with ⟨cf, pl, st, du, po, w, h⟩
    cases hp
    cases pl <;> rfl
  · rcases q with ⟨cf, pl, st, du, po, w, h⟩
    cases hq
    cases pl <;> rfl

/-- C8 witness: the loaded playing and paused fixtures. -/
theorem C8_play_pause_idempotent_witness :
    playingPlayer.play.1 = playingPlayer ∧ loadedPlayer.pause.1 = loadedPlayer :=
  C8_play_pause_idempotent playingPlayer loadedPlayer rfl rfl

/-! ## Claim C9 -/

/-- C9 counterexample: `ProjectPlayer::seek` returns `()` whatever the
player's condition.  On a never-loaded (stopped) player the returned value
is identical to the one returned on a loaded player, while the spec-side
outcome attached to the two conditions differs (NotReady versus an
accepted seek): the source returns no NotReady — nothing distinguishes the
not-ready return from a ready one. -/
theorem C9_counterexample :
    ProjectPlayer.seekReturn ProjectPlayer.new (1 / 2) =
      ProjectPlayer.seekReturn loadedPlayer (1 / 2) ∧
    ProjectPlayer.new.isLoaded = false ∧
    loadedPlayer.isLoaded = true ∧
    specSeekOutcome ProjectPlayer.new.isLoaded ≠
      specSeekOutcome loadedPlayer.isLoaded :=
  ⟨rfl, rfl, rfl, by decide⟩

/-- C9 (amended): seeking with no pipeline loaded — before any successful
load, or after `stop` — issues no seek to any pipeline and, since `seek`
takes `&self` and the embedding mutates nothing, has no effect on the
player's position or state; but instead of returning NotReady the method
returns unit, exactly as a ready seek does. -/
theorem C9_seek_unloaded (p : ProjectPlayer) (x : ℚ) (h : p.pipeline = none) :
    p.seek x = [] ∧
    p.stop.1.seek x = [] ∧
    p.seekReturn x = () := by
  refine ⟨?_, rfl, rfl⟩
  unfold ProjectPlayer.seek
  rw [h]

/-- C9 witness: the fresh (never loaded) player. -/
theorem C9_seek_unloaded_witness :
    ProjectPlayer.new.seek (1 / 2) = [] ∧
    ProjectPlayer.new.stop.1.seek (1 / 2) = [] ∧
    ProjectPlayer.new.seekReturn (1 / 2) = () :=
  C9_seek_unloaded ProjectPlayer.new (1 / 2) rfl

/-! ## Claim C10 -/

/-- C10 (confirmed): loading a project with no video clips succeeds —
`load_project` returns `Ok(())`, not a NoClips error: the player equals
the stopped player, no pipeline is constructed, `is_loaded()` stays false
and the state remains Stopped. -/
theorem C10_load_noClips (p : ProjectPlayer) (proj : Project) (env : LoadEnv)
    (h : proj.videoClips = []) :
    (p.loadProject proj env).2 = .ok () ∧
    (p.loadProject proj env).1 = p.stop.1 ∧
    (p.loadProject proj env).1.isLoaded = false ∧
    (p.loadProject proj env).1.state = .stopped := by
  simp [ProjectPlayer.loadProject, h, ProjectPlayer.isLoaded, ProjectPlayer.stop]

/-- C10 witness: the fresh player loading the audio-only fixture. -/
theorem C10_load_noClips_witness :
    (ProjectPlayer.new.loadProject projNoVideo demoLoadEnv).2 = .ok () ∧
    (ProjectPlayer.new.loadProject projNoVideo demoLoadEnv).1 = ProjectPlayer.new.stop.1 ∧
    (ProjectPlayer.new.loadProject projNoVideo demoLoadEnv).1.isLoaded = false ∧
    (ProjectPlayer.new.loadProject projNoVideo demoLoadEnv).1.state = .stopped :=
  C10_load_noClips ProjectPlayer.new projNoVideo demoLoadEnv (by decide)

end Montage
